import Mathlib

/-
Verification of the colorquant CLI wrapper (cmd/cli.go) against its
natural-language specification.

The embedding below follows the Go source of cmd/cli.go. The package-level
map of dithering kernels is embedded as an association list of exact
rationals (the source writes each weight as an exact fraction of float32
literals such as 7.0 / 48.0; the claims quantify over the exact rational
fractions written in the table). The imperative CLI flow (the Open and
Quantify methods and the body of main after flag parsing) is embedded as
pure functions from the flag configuration and the outcomes of the external
world (file open, image decode, file create, image encode) to the list of
observable effects and a final outcome. A call to log.Fatal terminates the
Go process; it is modelled as a distinguished fatal outcome. Dereferencing
a nil image value panics; it is modelled as a distinguished panicked
outcome.
-/

namespace Colorquant

/-- A dithering kernel as stored in the colorquant.Dither struct: the Filter
field holds the 2-D weight matrix. -/
structure Dither where
  Filter : List (List ℚ)
deriving DecidableEq, Repr

/-- The FloydSteinberg entry of the kernel table (cmd/cli.go lines 52-58). -/
def floydSteinberg : Dither :=
  ⟨[[0, 0, 0, 7/48, 5/48],
    [3/48, 5/48, 7/48, 5/48, 3/48],
    [1/48, 3/48, 5/48, 3/48, 1/48]]⟩

/-- The Burkes entry of the kernel table (cmd/cli.go lines 59-66). The
fourth row is present in the source exactly as written here. -/
def burkes : Dither :=
  ⟨[[0, 0, 0, 8/32, 4/32],
    [2/32, 4/32, 8/32, 4/32, 2/32],
    [0, 0, 0, 0, 0],
    [4/32, 8/32, 0, 0, 0]]⟩

/-- The Stucki entry of the kernel table (cmd/cli.go lines 67-73). -/
def stucki : Dither :=
  ⟨[[0, 0, 0, 8/42, 4/42],
    [2/42, 4/42, 8/42, 4/42, 2/42],
    [1/42, 2/42, 4/42, 2/42, 1/42]]⟩

/-- The Atkinson entry of the kernel table (cmd/cli.go lines 74-80). -/
def atkinson : Dither :=
  ⟨[[0, 0, 1/8, 1/8],
    [1/8, 1/8, 1/8, 0],
    [0, 1/8, 0, 0]]⟩

/-- The Sierra-3 entry of the kernel table (cmd/cli.go lines 81-87). -/
def sierra3 : Dither :=
  ⟨[[0, 0, 0, 5/32, 3/32],
    [2/32, 4/32, 5/32, 4/32, 2/32],
    [0, 2/32, 3/32, 2/32, 0]]⟩

/-- The Sierra-2 entry of the kernel table (cmd/cli.go lines 88-94). -/
def sierra2 : Dither :=
  ⟨[[0, 0, 0, 4/16, 3/16],
    [1/16, 2/16, 3/16, 2/16, 1/16],
    [0, 0, 0, 0, 0]]⟩

/-- The Sierra-Lite entry of the kernel table (cmd/cli.go lines 95-101). -/
def sierraLite : Dither :=
  ⟨[[0, 0, 2/4],
    [1/4, 1/4, 0],
    [0, 0, 0]]⟩

/-- The package-level kernel registry, the Go map literal assigned to the
variable named dither in cmd/cli.go lines 51-102. Go maps are unordered;
the entries are listed in source order and only key membership and the
key-to-value mapping are used by the program. -/
def dither : List (String × Dither) :=
  [("FloydSteinberg", floydSteinberg),
   ("Burkes", burkes),
   ("Stucki", stucki),
   ("Atkinson", atkinson),
   ("Sierra-3", sierra3),
   ("Sierra-2", sierra2),
   ("Sierra-Lite", sierraLite)]

/-- Map lookup, modelling the Go expression dither[ditherer] together with
its comma-ok membership test. -/
def lookupKernel (name : String) : Option Dither :=
  (dither.find? (fun p => p.1 == name)).map (fun p => p.2)

/-- The sum of all weights of a kernel matrix. -/
def kernelSum (d : Dither) : ℚ :=
  (d.Filter.map List.sum).sum

/-- A kernel matrix with every weight multiplied by a common denominator;
used to state that a kernel is written, cell for cell, as the given
numerators over that denominator. -/
def scaled (d : Dither) (q : ℚ) : List (List ℚ) :=
  d.Filter.map (fun r => r.map (fun w => w * q))

/-- An RGBA color with 8-bit channels, as in the Go image/color package. -/
structure RGBA where
  r : Nat
  g : Nat
  b : Nat
  a : Nat
deriving DecidableEq, Repr

/-- The 216-color web-safe palette of the Go standard library,
image/color/palette.WebSafe: all colors whose red, green and blue channels
are multiples of 0x33 (51), with full alpha. The generator iterates red
outermost and blue innermost. -/
def webSafe : List RGBA :=
  (List.range 6).flatMap (fun r =>
    (List.range 6).flatMap (fun g =>
      (List.range 6).map (fun b => ⟨51 * r, 51 * g, 51 * b, 255⟩)))

/-- An axis-aligned rectangle, as in the Go image package: minX and minY
form the Min point, maxX and maxY the Max point. -/
structure Rectangle where
  minX : Int
  minY : Int
  maxX : Int
  maxY : Int
deriving DecidableEq, Repr

/-- Width of a rectangle, the Go method Rectangle.Dx. -/
def Rectangle.Dx (r : Rectangle) : Int := r.maxX - r.minX

/-- Height of a rectangle, the Go method Rectangle.Dy. -/
def Rectangle.Dy (r : Rectangle) : Int := r.maxY - r.minY

/-- The Go function image.Rect, which swaps the coordinates when they are
given in the wrong order so that Min is componentwise at most Max. -/
def Rect (x0 y0 x1 y1 : Int) : Rectangle :=
  let p := if x0 > x1 then (x1, x0) else (x0, x1)
  let q := if y0 > y1 then (y1, y0) else (y0, y1)
  ⟨p.1, q.1, p.2, q.2⟩

/-- A decoded source image, abstracted to what the CLI wrapper observes of
it: its bounds. The pixel contents are consumed only by the external
colorquant library, which the wrapper calls but does not inspect. -/
structure Image where
  bounds : Rectangle
deriving DecidableEq, Repr

/-- The command line flag configuration: the package-level variables
output, ditherer, imageType, noDither, compression and numColors of
cmd/cli.go, as set by flag parsing. -/
structure Config where
  output : String
  ditherer : String
  imageType : String
  noDither : Bool
  compression : Int
  numColors : Int
deriving DecidableEq, Repr

/-- An observable effect of the CLI wrapper: construction of the
destination paletted image, a call into the colorquant library Quantize
method (with the kernel passed, or none for the NoDither receiver, the
numColors argument and the two trailing boolean arguments), creation of
the output file, a JPEG or PNG encode of the result, or a call to
log.Fatal. -/
inductive Event where
  | newPaletted (rect : Rectangle) (pal : List RGBA)
  | quantizeCall (kernel : Option Dither) (numColors : Int) (b1 b2 : Bool)
  | createFile (name : String)
  | encodeJPEG (quality : Int)
  | encodePNG
  | logFatal (msg : String)
deriving DecidableEq, Repr

/-- Whether an event is a call into the colorquant Quantize method. -/
def Event.isQuantizeCall : Event → Bool
  | .quantizeCall _ _ _ _ => true
  | _ => false

/-- Whether an event writes encoded image data to the output file. -/
def Event.isEncode : Event → Bool
  | .encodeJPEG _ => true
  | .encodePNG => true
  | _ => false

/-- How a call of the Quantify method ends: ok models the return of the
quantized image with a nil error, err the return of a nil image with a
non-nil error, fatal a process-terminating log.Fatal, and panicked a
nil-pointer dereference of the source image. -/
inductive QuantifyResult where
  | ok : QuantifyResult
  | err : QuantifyResult
  | fatal : QuantifyResult
  | panicked : QuantifyResult
deriving DecidableEq, Repr

/-- The tail of the Quantify method after the quantize call (cmd/cli.go
lines 134-152): os.Create of the output file, then a switch on imageType
that JPEG-encodes for "jpg", PNG-encodes for "png", and does nothing for
any other value before Quantify returns the quantized image with a nil
error. An encode failure hits log.Fatal. The createOk and encodeOk flags
stand for the success of the external os.Create and encode calls. The
createFile event for the attempt is emitted by Quantify itself. -/
def encodeTail (cfg : Config) (createOk encodeOk : Bool) :
    List Event × QuantifyResult :=
  if createOk then
    match cfg.imageType with
    | "jpg" =>
      if encodeOk then ([.encodeJPEG cfg.compression], .ok)
      else ([.encodeJPEG cfg.compression, .logFatal "jpeg encode error"], .fatal)
    | "png" =>
      if encodeOk then ([.encodePNG], .ok)
      else ([.encodePNG, .logFatal "png encode error"], .fatal)
    | _ => ([], .ok)
  else ([], .err)

/-- The Quantify method of cmd/cli.go lines 117-153. It builds the
destination paletted image over the web-safe palette with the bounds
image.Rect(0, 0, src.Bounds().Dx(), src.Bounds().Dy()); then either calls
the NoDither Quantize with trailing booleans false, true, or looks the
ditherer flag up in the kernel table, hitting log.Fatal when absent and
otherwise calling Quantize on the found kernel with trailing booleans
true, true; then creates the output file and encodes per imageType. A nil
source image panics at src.Bounds() before any effect. -/
def Quantify (cfg : Config) (src : Option Image) (output : String)
    (createOk encodeOk : Bool) : List Event × QuantifyResult :=
  match src with
  | none => ([], .panicked)
  | some img =>
    let dst : Event :=
      .newPaletted (Rect 0 0 img.bounds.Dx img.bounds.Dy) webSafe
    if cfg.noDither then
      let tail := encodeTail cfg createOk encodeOk
      ([dst, .quantizeCall none cfg.numColors false true,
        .createFile output] ++ tail.1, tail.2)
    else
      match lookupKernel cfg.ditherer with
      | none => ([dst, .logFatal "Invalid dithering method!"], .fatal)
      | some d =>
        let tail := encodeTail cfg createOk encodeOk
        ([dst, .quantizeCall (some d) cfg.numColors true true,
          .createFile output] ++ tail.1, tail.2)

/-- The Open method of cmd/cli.go lines 105-114: os.Open the file, then
image.Decode it, returning the image together with the error of the failed
step; either failure propagates to the caller as a non-nil error with a
nil image. The openOk and decodeOk flags stand for the success of the
external calls, and img for the decoded image when both succeed. -/
def Open (openOk decodeOk : Bool) (img : Image) : Option Image × Option String :=
  if openOk then
    if decodeOk then (some img, none)
    else (none, some "image: unknown format")
  else (none, some "open: no such file")

/-- How a run of main ends after flag parsing: fatal models a
process-terminating log.Fatal, panicked a nil-pointer dereference inside
Quantify, and completed the printing of the Done completion message. -/
inductive MainOutcome where
  | fatal : MainOutcome
  | panicked : MainOutcome
  | completed : MainOutcome
deriving DecidableEq, Repr

/-- Lift the result of a discarded Quantify call to the outcome of main:
a log.Fatal or a panic inside Quantify terminates the process before the
completion message, while both ordinary returns (ok and err) are discarded
and main goes on to print the completion message. -/
def afterQuantify : QuantifyResult → MainOutcome
  | .fatal => .fatal
  | .panicked => .panicked
  | .ok => .completed
  | .err => .completed

/-- The output file name main passes to Quantify (cmd/cli.go lines
199-213): output.jpg or output.png in no-dither mode, otherwise the
ditherer name with the matching extension. -/
def outName (cfg : Config) : String :=
  match cfg.imageType with
  | "jpg" => if cfg.noDither then "output.jpg" else cfg.ditherer ++ ".jpg"
  | _ => if cfg.noDither then "output.png" else cfg.ditherer ++ ".png"

/-- The body of main after flag parsing (cmd/cli.go lines 172-220). Open
is called and its error discarded (img, underscore); then numColors at
most 1 hits log.Fatal; then a filepath.Abs failure hits log.Fatal (absOk
stands for its success); then the processing closure switches on
imageType, calling Quantify for "jpg" and "png" and doing nothing
otherwise, discarding both return values of Quantify; finally the Done
completion message is printed. -/
def mainRun (cfg : Config) (openOk decodeOk : Bool) (img : Image)
    (absOk createOk encodeOk : Bool) : List Event × MainOutcome :=
  let opened := Open openOk decodeOk img
  let src := opened.1
  if cfg.numColors ≤ 1 then
    ([.logFatal "Color palette value cannot be less then 1"], .fatal)
  else if absOk then
    match cfg.imageType with
    | "jpg" =>
      let r := Quantify cfg src (outName cfg) createOk encodeOk
      (r.1, afterQuantify r.2)
    | "png" =>
      let r := Quantify cfg src (outName cfg) createOk encodeOk
      (r.1, afterQuantify r.2)
    | _ => ([], .completed)
  else ([.logFatal "filepath error"], .fatal)

/-- A sample decoded image used by the concrete runs below. -/
def img0 : Image := ⟨⟨0, 0, 4, 4⟩⟩

/-- The flag configuration with every flag at its default value. -/
def cfgDefault : Config :=
  { output := "output", ditherer := "FloydSteinberg", imageType := "jpg",
    noDither := false, compression := 100, numColors := 256 }

/-- The default flags with the palette flag set to 1 color. -/
def cfgPalette1 : Config :=
  { cfgDefault with numColors := 1 }

/-- The default flags with the no-dither flag set. -/
def cfgNoDither : Config :=
  { cfgDefault with noDither := true }

/-- The default flags with the no-dither flag set and the image type set to
gif, a value the encoder switch does not recognize. -/
def cfgGif : Config :=
  { cfgDefault with noDither := true, imageType := "gif" }

end Colorquant

namespace Colorquant

/-- Claim C1, counterexample: the claim that every kernel registered in the
dither table has weight sum within 1e-6 of 1.0 is false. The Atkinson entry
sums to 3/4 and the Burkes entry sums to 11/8, each farther than 1e-6 from
1.0. -/
theorem c1_counterexample :
    (lookupKernel "Atkinson").map kernelSum = some (3/4) ∧
    (lookupKernel "Burkes").map kernelSum = some (11/8) ∧
    ¬ (|(3 : ℚ)/4 - 1| ≤ 1/1000000) ∧
    ¬ (|(11 : ℚ)/8 - 1| ≤ 1/1000000) := by
  refine ⟨?_, ?_, ?_, ?_⟩
  · simp [lookupKernel, dither, kernelSum, atkinson]
    norm_num
  · simp [lookupKernel, dither, kernelSum, burkes]
    norm_num
  · rw [show (3 : ℚ)/4 - 1 = -(1/4) by norm_num, abs_neg, abs_of_nonneg (by norm_num)]
    norm_num
  · rw [show (11 : ℚ)/8 - 1 = 3/8 by norm_num, abs_of_nonneg (by norm_num)]
    norm_num

/-- Claim C1, amended: for every entry of the kernel table other than
Atkinson and Burkes, the sum of its weights is exactly 1 and hence lies
within 1e-6 of 1.0; Atkinson sums to 3/4 and Burkes to 11/8. -/
theorem c1_amended_sum_one (p : String × Dither) (hp : p ∈ dither)
    (hA : p.1 ≠ "Atkinson") (hB : p.1 ≠ "Burkes") :
    kernelSum p.2 = 1 ∧ |kernelSum p.2 - 1| ≤ 1/1000000 := by
  fin_cases hp <;>
    simp_all [kernelSum, floydSteinberg, stucki, sierra3, sierra2, sierraLite] <;>
    norm_num

/-- Witness for the amended claim C1, at the FloydSteinberg entry. -/
theorem c1_amended_sum_one_witness :
    kernelSum floydSteinberg = 1 ∧ |kernelSum floydSteinberg - 1| ≤ 1/1000000 :=
  c1_amended_sum_one ("FloydSteinberg", floydSteinberg)
    (by simp [dither]) (by decide) (by decide)

/-- Claim C2: the kernel table contains exactly the seven named kernels
FloydSteinberg, Burkes, Stucki, Atkinson, Sierra-3, Sierra-2 and
Sierra-Lite and no other entries; their matrices have exactly the stated
shapes (row count and the length of every row), and the per-cell weights
are exactly the listed numerators over the stated denominators: 48 for
FloydSteinberg (3 by 5), 32 for Burkes (4 by 5), 42 for Stucki (3 by 5),
8 for Atkinson (3 by 4), 32 for Sierra-3 (3 by 5), 16 for Sierra-2
(3 by 5) and 4 for Sierra-Lite (3 by 3). -/
theorem c2_table_contents :
    dither.map Prod.fst =
      ["FloydSteinberg", "Burkes", "Stucki", "Atkinson",
       "Sierra-3", "Sierra-2", "Sierra-Lite"] ∧
    dither.map (fun p => (p.2.Filter.length, p.2.Filter.map List.length)) =
      [(3, [5, 5, 5]), (4, [5, 5, 5, 5]), (3, [5, 5, 5]), (3, [4, 4, 4]),
       (3, [5, 5, 5]), (3, [5, 5, 5]), (3, [3, 3, 3])] ∧
    scaled floydSteinberg 48 =
      [[0, 0, 0, 7, 5], [3, 5, 7, 5, 3], [1, 3, 5, 3, 1]] ∧
    scaled burkes 32 =
      [[0, 0, 0, 8, 4], [2, 4, 8, 4, 2], [0, 0, 0, 0, 0], [4, 8, 0, 0, 0]] ∧
    scaled stucki 42 =
      [[0, 0, 0, 8, 4], [2, 4, 8, 4, 2], [1, 2, 4, 2, 1]] ∧
    scaled atkinson 8 =
      [[0, 0, 1, 1], [1, 1, 1, 0], [0, 1, 0, 0]] ∧
    scaled sierra3 32 =
      [[0, 0, 0, 5, 3], [2, 4, 5, 4, 2], [0, 2, 3, 2, 0]] ∧
    scaled sierra2 16 =
      [[0, 0, 0, 4, 3], [1, 2, 3, 2, 1], [0, 0, 0, 0, 0]] ∧
    scaled sierraLite 4 =
      [[0, 0, 2], [1, 1, 0], [0, 0, 0]] := by
  refine ⟨?_, ?_, ?_, ?_, ?_, ?_, ?_, ?_, ?_⟩ <;>
    simp [dither, scaled, floydSteinberg, burkes, stucki, atkinson,
      sierra3, sierra2, sierraLite]

/-- Claim C3, counterexample: the claim that Atkinson is the only entry of
the kernel table whose weights do not sum to 1 is false, because the Burkes
entry sums to 11/8, not 1. -/
theorem c3_counterexample :
    (lookupKernel "Burkes").map kernelSum = some (11/8) ∧ (11 : ℚ)/8 ≠ 1 ∧
    ¬ (∀ p ∈ dither, p.1 ≠ "Atkinson" → kernelSum p.2 = 1) := by
  refine ⟨?_, by norm_num, fun h => ?_⟩
  · simp [lookupKernel, dither, kernelSum, burkes]
    norm_num
  · have hb := h ("Burkes", burkes) (by simp [dither]) (by decide)
    rw [show kernelSum burkes = 11/8 by simp [kernelSum, burkes]; norm_num] at hb
    norm_num at hb

/-- Claim C3, amended: the Atkinson kernel weights sum to exactly 6/8, and
the entries of the kernel table whose weights do not sum to 1 are exactly
Atkinson (sum 6/8) and Burkes (sum 11/8); every one of the other five
entries sums to exactly 1. -/
theorem c3_amended_sum_exceptions :
    (lookupKernel "Atkinson").map kernelSum = some (6/8) ∧
    (lookupKernel "Burkes").map kernelSum = some (11/8) ∧
    ∀ p ∈ dither, (kernelSum p.2 = 1 ↔ (p.1 ≠ "Atkinson" ∧ p.1 ≠ "Burkes")) := by
  refine ⟨?_, ?_, fun p hp => ?_⟩
  · simp [lookupKernel, dither, kernelSum, atkinson]
    norm_num
  · simp [lookupKernel, dither, kernelSum, burkes]
    norm_num
  · fin_cases hp <;>
      simp [kernelSum, floydSteinberg, burkes, stucki, atkinson,
        sierra3, sierra2, sierraLite] <;>
      norm_num

/-- Witness for the amended claim C3, at the Stucki entry. -/
theorem c3_amended_sum_exceptions_witness :
    kernelSum stucki = 1 ↔ ("Stucki" ≠ "Atkinson" ∧ "Stucki" ≠ "Burkes") :=
  c3_amended_sum_exceptions.2.2 ("Stucki", stucki) (by simp [dither])

/-- No event emitted by the encode tail of Quantify is a quantize call. -/
theorem encodeTail_no_quantize (cfg : Config) (createOk encodeOk : Bool) :
    ∀ e ∈ (encodeTail cfg createOk encodeOk).1, e.isQuantizeCall = false := by
  intro e he
  unfold encodeTail at he
  split at he
  · split at he <;> try split at he
    all_goals simp at he
    all_goals
      first
      | (subst he; rfl)
      | (rcases he with he | he <;> subst he <;> rfl)
  · simp at he

/-- The encode tail of Quantify never reports a panic. -/
theorem encodeTail_ne_panicked (cfg : Config) (createOk encodeOk : Bool) :
    (encodeTail cfg createOk encodeOk).2 ≠ .panicked := by
  unfold encodeTail
  split
  · split <;> try split
    all_goals simp
  · simp

/-- When the configured image type is neither jpg nor png and the output
file is created, the encode tail emits no event and returns a nil error. -/
theorem encodeTail_other (cfg : Config) (encodeOk : Bool)
    (hj : cfg.imageType ≠ "jpg") (hp : cfg.imageType ≠ "png") :
    encodeTail cfg true encodeOk = ([], .ok) := by
  unfold encodeTail
  split
  · split
    · exact absurd (by assumption) hj
    · exact absurd (by assumption) hp
    · rfl
  · simp_all

/-- A successful kernel lookup returns an entry of the table under the
requested name. -/
theorem lookupKernel_mem (name : String) (d : Dither)
    (h : lookupKernel name = some d) : (name, d) ∈ dither := by
  unfold lookupKernel at h
  cases hf : dither.find? (fun p => p.1 == name) with
  | none => rw [hf] at h; simp at h
  | some p =>
    rw [hf] at h
    simp at h
    obtain ⟨a, b⟩ := p
    have hm := List.mem_of_find?_eq_some hf
    have hp := List.find?_some hf
    have ha : a = name := by simpa using hp
    simp at h
    rw [← ha, ← h]
    exact hm

/-- Quantify on a decoded (non-nil) source image never panics. -/
theorem Quantify_some_ne_panicked (cfg : Config) (img : Image) (out : String)
    (createOk encodeOk : Bool) :
    (Quantify cfg (some img) out createOk encodeOk).2 ≠ .panicked := by
  unfold Quantify
  by_cases hnd : cfg.noDither
  · simp [hnd]
    exact encodeTail_ne_panicked cfg createOk encodeOk
  · simp [hnd]
    cases hL : lookupKernel cfg.ditherer with
    | none => simp
    | some d =>
      simp
      exact encodeTail_ne_panicked cfg createOk encodeOk

/-- The outcome of main after a Quantify call whose return values are
discarded is the completion message exactly when the call neither hit
log.Fatal nor panicked. -/
theorem afterQuantify_completed (r : QuantifyResult) (hp : r ≠ .panicked) :
    (afterQuantify r = .completed ↔ r ≠ .fatal) := by
  cases r <;> simp_all [afterQuantify]

/-- The event list of the default dithering run on the sample image. -/
theorem quantify_default_events :
    (Quantify cfgDefault (some img0) "FloydSteinberg.jpg" true true).1 =
      [Event.newPaletted (Rect 0 0 4 4) webSafe,
       Event.quantizeCall (some floydSteinberg) cfgDefault.numColors true true,
       Event.createFile "FloydSteinberg.jpg", Event.encodeJPEG 100] := rfl

/-- Claim C4, code bug evidence: with numColors = 1, which is not less
than 1, so both the claim and the error message of the guard say the run
must be accepted, main hits log.Fatal with the message that the value
cannot be less than 1 and terminates before any quantize call; the guard
at cmd/cli.go line 178 tests numColors at most 1 rather than numColors
strictly less than 1. -/
theorem c4_one_color_rejected :
    cfgPalette1.numColors = 1 ∧ ¬ (cfgPalette1.numColors < 1) ∧
    mainRun cfgPalette1 true true img0 true true true =
      ([Event.logFatal "Color palette value cannot be less then 1"], .fatal) := by
  refine ⟨rfl, by decide, rfl⟩

/-- Claim C5: in every dithering-mode invocation of Quantify (no-dither
flag false), the requested kernel name is validated against the kernel
table before Quantize is invoked: when the name is not a key of the
table, Quantify hits log.Fatal and emits no quantize call, and every
quantize call that does happen passes a kernel registered in the table
under the requested name. -/
theorem c5_kernel_validated (cfg : Config) (img : Image) (out : String)
    (createOk encodeOk : Bool) (hnd : cfg.noDither = false) :
    (lookupKernel cfg.ditherer = none →
      (Quantify cfg (some img) out createOk encodeOk).2 = .fatal ∧
      ∀ e ∈ (Quantify cfg (some img) out createOk encodeOk).1,
        e.isQuantizeCall = false) ∧
    (∀ k n b1 b2,
      Event.quantizeCall k n b1 b2 ∈
          (Quantify cfg (some img) out createOk encodeOk).1 →
      ∃ d, k = some d ∧ (cfg.ditherer, d) ∈ dither) := by
  constructor
  · intro hL
    constructor
    · simp [Quantify, hnd, hL]
    · intro e he
      simp [Quantify, hnd, hL] at he
      rcases he with he | he <;> subst he <;> rfl
  · intro k n b1 b2 hmem
    unfold Quantify at hmem
    simp [hnd] at hmem
    cases hL : lookupKernel cfg.ditherer with
    | none =>
      rw [hL] at hmem
      simp at hmem
    | some d =>
      rw [hL] at hmem
      simp at hmem
      rcases hmem with ⟨hk, hn, hb1, hb2⟩ | hmem
      · exact ⟨d, hk, lookupKernel_mem _ _ hL⟩
      · have := encodeTail_no_quantize cfg createOk encodeOk _ hmem
        simp [Event.isQuantizeCall] at this

/-- Witness for claim C5: in the default dithering run, the quantize call
receives the FloydSteinberg kernel, an entry of the table under the
requested name. -/
theorem c5_kernel_validated_witness :
    ∃ d, (some floydSteinberg : Option Dither) = some d ∧
      (cfgDefault.ditherer, d) ∈ dither :=
  (c5_kernel_validated cfgDefault img0 "FloydSteinberg.jpg" true true rfl).2
    (some floydSteinberg) cfgDefault.numColors true true
    (by
      rw [quantify_default_events]
      exact List.mem_cons_of_mem _ (List.mem_cons_self _ _))

/-- Claim C6, code bug evidence: when the image decode fails, Open does
return the decode error to its caller, but main discards it (the
assignment img, underscore at cmd/cli.go line 175) and proceeds into
Quantify with the nil image, which panics dereferencing it; the decode
error is never surfaced and the run does not stop at the failed decode. -/
theorem c6_decode_error_discarded :
    (Open true false img0).2 = some "image: unknown format" ∧
    (Open true false img0).1 = none ∧
    mainRun cfgDefault true false img0 true true true = ([], .panicked) :=
  ⟨rfl, rfl, rfl⟩

/-- Claim C7: in every quantize call the wrapper makes, the first trailing
boolean argument is false exactly when no-dither mode is selected and true
otherwise, and the second trailing boolean argument is true. -/
theorem c7_trailing_booleans (cfg : Config) (img : Image) (out : String)
    (createOk encodeOk : Bool) (k : Option Dither) (n : Int) (b1 b2 : Bool)
    (h : Event.quantizeCall k n b1 b2 ∈
        (Quantify cfg (some img) out createOk encodeOk).1) :
    b1 = !cfg.noDither ∧ b2 = true := by
  unfold Quantify at h
  cases hnd : cfg.noDither with
  | true =>
    simp [hnd] at h
    rcases h with ⟨hk, hn, hb1, hb2⟩ | h
    · simp [hnd, hb1, hb2]
    · have := encodeTail_no_quantize cfg createOk encodeOk _ h
      simp [Event.isQuantizeCall] at this
  | false =>
    simp [hnd] at h
    cases hL : lookupKernel cfg.ditherer with
    | none =>
      rw [hL] at h
      simp at h
    | some d =>
      rw [hL] at h
      simp at h
      rcases h with ⟨hk, hn, hb1, hb2⟩ | h
      · simp [hnd, hb1, hb2]
      · have := encodeTail_no_quantize cfg createOk encodeOk _ h
        simp [Event.isQuantizeCall] at this

/-- Witness for claim C7, at the default dithering run: the quantize call
passes true and true as the trailing booleans. -/
theorem c7_trailing_booleans_witness :
    true = !cfgDefault.noDither ∧ true = true :=
  c7_trailing_booleans cfgDefault img0 "FloydSteinberg.jpg" true true
    (some floydSteinberg) cfgDefault.numColors true true
    (by
      rw [quantify_default_events]
      exact List.mem_cons_of_mem _ (List.mem_cons_self _ _))

set_option maxRecDepth 4000 in
/-- Claim C8: every invocation of Quantify on a decoded source image first
constructs the destination paletted image over the built-in 216-color
web-safe palette, with dimensions equal to those of the source image
bounds, whatever the flag configuration; in particular the numColors flag
is universally quantified here and does not occur in the destination. -/
theorem c8_websafe_destination (cfg : Config) (img : Image) (out : String)
    (createOk encodeOk : Bool)
    (hx : 0 ≤ img.bounds.Dx) (hy : 0 ≤ img.bounds.Dy) :
    (Quantify cfg (some img) out createOk encodeOk).1.head? =
      some (.newPaletted ⟨0, 0, img.bounds.Dx, img.bounds.Dy⟩ webSafe) ∧
    webSafe.length = 216 ∧
    (⟨0, 0, img.bounds.Dx, img.bounds.Dy⟩ : Rectangle).Dx = img.bounds.Dx ∧
    (⟨0, 0, img.bounds.Dx, img.bounds.Dy⟩ : Rectangle).Dy = img.bounds.Dy := by
  have hR : Rect 0 0 img.bounds.Dx img.bounds.Dy =
      ⟨0, 0, img.bounds.Dx, img.bounds.Dy⟩ := by
    unfold Rect
    simp [not_lt.mpr hx, not_lt.mpr hy]
  refine ⟨?_, by decide, by simp [Rectangle.Dx], by simp [Rectangle.Dy]⟩
  unfold Quantify
  cases hnd : cfg.noDither with
  | true => simp [hnd, hR]
  | false =>
    cases hL : lookupKernel cfg.ditherer with
    | none => simp [hnd, hL, hR]
    | some d => simp [hnd, hL, hR]

/-- Witness for claim C8, at the default run on the sample image. -/
theorem c8_websafe_destination_witness :
    (Quantify cfgDefault (some img0) "FloydSteinberg.jpg" true true).1.head? =
      some (.newPaletted ⟨0, 0, img0.bounds.Dx, img0.bounds.Dy⟩ webSafe) ∧
    webSafe.length = 216 ∧
    (⟨0, 0, img0.bounds.Dx, img0.bounds.Dy⟩ : Rectangle).Dx = img0.bounds.Dx ∧
    (⟨0, 0, img0.bounds.Dx, img0.bounds.Dy⟩ : Rectangle).Dy = img0.bounds.Dy :=
  c8_websafe_destination cfgDefault img0 "FloydSteinberg.jpg" true true
    (by decide) (by decide)

/-- Claim C9: when the configured image type is neither jpg nor png and the
output file creation succeeds, Quantify still creates the output file,
writes no encoded image data (no encode event occurs), and returns the
quantized image together with a nil error: the unrecognized type is
reported as success. The last hypothesis rules out the orthogonal
log.Fatal on an unknown kernel name, which exits before the file step. -/
theorem c9_unknown_type_silent_success (cfg : Config) (img : Image)
    (out : String) (encodeOk : Bool)
    (hj : cfg.imageType ≠ "jpg") (hp : cfg.imageType ≠ "png")
    (hk : cfg.noDither = true ∨ lookupKernel cfg.ditherer ≠ none) :
    (Quantify cfg (some img) out true encodeOk).2 = .ok ∧
    Event.createFile out ∈ (Quantify cfg (some img) out true encodeOk).1 ∧
    ∀ e ∈ (Quantify cfg (some img) out true encodeOk).1,
      e.isEncode = false := by
  have ht := encodeTail_other cfg encodeOk hj hp
  unfold Quantify
  cases hnd : cfg.noDither with
  | true =>
    refine ⟨?_, ?_, ?_⟩ <;> simp [hnd, ht, Event.isEncode]
  | false =>
    rcases hk with hk | hk
    · rw [hnd] at hk
      cases hk
    · cases hL : lookupKernel cfg.ditherer with
      | none => exact absurd hL hk
      | some d =>
        refine ⟨?_, ?_, ?_⟩ <;> simp [hnd, hL, ht, Event.isEncode]

/-- Witness for claim C9: with image type gif in no-dither mode, the run
returns success and the output file is created. -/
theorem c9_unknown_type_silent_success_witness :
    (Quantify cfgGif (some img0) "output.png" true true).2 = .ok ∧
    Event.createFile "output.png" ∈
      (Quantify cfgGif (some img0) "output.png" true true).1 :=
  have h := c9_unknown_type_silent_success cfgGif img0 "output.png" true
    (by decide) (by decide) (Or.inl rfl)
  ⟨h.1, h.2.1⟩

/-- Claim C10, counterexample: a run that reaches the processing step with
a failing JPEG encode terminates through log.Fatal inside Quantify, so the
completion message is not printed; the claim that the message is printed
regardless of whether encoding succeeded or failed is false. -/
theorem c10_counterexample :
    (1 : Int) < cfgNoDither.numColors ∧
    (mainRun cfgNoDither true true img0 true true false).2 = .fatal ∧
    ¬ ((mainRun cfgNoDither true true img0 true true false).2 = .completed) := by
  refine ⟨by decide, rfl, by decide⟩

/-- Claim C10, amended: for every run that reaches the processing step on
a decoded image, both return values of the Quantify call are discarded and
the completion message is printed exactly when the Quantify call does not
terminate the process: it is printed for either ordinary return (the
quantized image with a nil error, or a nil image with a non-nil error such
as a failed output-file creation), and it is not printed when Quantify
hits log.Fatal (unknown kernel in dither mode, or a jpg or png encode
failure); when the image type is neither jpg nor png, main makes no
Quantify call and prints the completion message. -/
theorem c10_amended_completion (cfg : Config) (img : Image)
    (createOk encodeOk : Bool) (hn : 1 < cfg.numColors) :
    ((mainRun cfg true true img true createOk encodeOk).2 = .completed ↔
      ((cfg.imageType ≠ "jpg" ∧ cfg.imageType ≠ "png") ∨
       (Quantify cfg (some img) (outName cfg) createOk encodeOk).2 ≠ .fatal)) := by
  have hle : ¬ (cfg.numColors ≤ 1) := not_le.mpr hn
  unfold mainRun
  simp only [Open, if_true, hle, if_false, ite_false, ite_true]
  split
  · rename_i heq
    rw [afterQuantify_completed _
      (Quantify_some_ne_panicked cfg img (outName cfg) createOk encodeOk)]
    simp [heq]
  · rename_i heq
    rw [afterQuantify_completed _
      (Quantify_some_ne_panicked cfg img (outName cfg) createOk encodeOk)]
    simp [heq]
  · rename_i h1 h2
    simp
    exact Or.inl ⟨h1, h2⟩

/-- Witness for the amended claim C10: with a failing output-file creation
in the default no-dither jpg run, the completion message is still printed,
the Quantify error having been discarded. -/
theorem c10_amended_completion_witness :
    ((mainRun cfgNoDither true true img0 true false true).2 = .completed ↔
      ((cfgNoDither.imageType ≠ "jpg" ∧ cfgNoDither.imageType ≠ "png") ∨
       (Quantify cfgNoDither (some img0) (outName cfgNoDither) false true).2 ≠
         .fatal)) :=
  c10_amended_completion cfgNoDither img0 false true (by decide)

end Colorquant
